import Mathlib

/-!
Verification of the Ryki trading system (Kinuth/Ryki-trading-bot).

Shallow embedding of the Python sources under `src/trading/`.  Python
`Decimal` and `float` values are embedded as exact rationals (`ℚ`);
`None`-able fields become `Option`; Django model rows become structures;
methods that mutate `self` become functions `State → State`.
-/

namespace Ryki

/-- Trade.Side from trading/models.py. -/
inductive Side
  | BUY
  | SELL
  deriving DecidableEq, Repr

/-- Position.Status from trading/models.py. -/
inductive PosStatus
  | OPEN
  | CLOSED
  deriving DecidableEq, Repr

/-- Trade.Status from trading/models.py (the values close_position touches). -/
inductive TradeStatus
  | PENDING
  | PARTIALLY_FILLED
  | FILLED
  | CANCELLED
  | REJECTED
  deriving DecidableEq, Repr

/-- RiskState.SystemStatus from trading/models.py. -/
inductive SystemStatus
  | ACTIVE
  | PAUSED
  | EMERGENCY_STOP
  deriving DecidableEq, Repr

/-- The fields of the Position model (trading/models.py) read or written by
`update_trailing_stop`.  `trailing_distance`, `highest_price` and
`lowest_price` are nullable columns, hence `Option ℚ`. -/
structure Position where
  side : Side
  unrealized_pnl_pct : ℚ
  current_stop : ℚ
  trailing_activated : Bool
  trailing_distance : Option ℚ
  highest_price : Option ℚ
  lowest_price : Option ℚ
  deriving DecidableEq, Repr

/-- First block of `Position.update_trailing_stop` (models.py lines 159-164):
activate the trailing stop once profit reaches the trigger percentage. -/
def Position.activate_step (p : Position) (current_price trailing_trigger_pct : ℚ) : Position :=
  if p.trailing_activated = false ∧ p.unrealized_pnl_pct ≥ trailing_trigger_pct * 100 then
    { p with
      trailing_activated := true
      trailing_distance := some |current_price - p.current_stop|
      highest_price := if p.side = Side.BUY then some current_price else none
      lowest_price := if p.side = Side.SELL then some current_price else none }
  else p

/-- Second block of `Position.update_trailing_stop` (models.py lines 166-179):
ratchet the stop.  Python reads `self.highest_price or Decimal('0')`, embedded
as `getD 0`; `self.trailing_distance` is always set when `trailing_activated`
(the activation block sets it), so the `getD 0` default is never exercised in
reachable states. -/
def Position.trail_step (p : Position) (current_price : ℚ) : Position :=
  if p.trailing_activated = true then
    if p.side = Side.BUY then
      if current_price > p.highest_price.getD 0 then
        if current_price - p.trailing_distance.getD 0 > p.current_stop then
          { p with
            highest_price := some current_price
            current_stop := current_price - p.trailing_distance.getD 0 }
        else { p with highest_price := some current_price }
      else p
    else
      match p.lowest_price with
      | none =>
        if current_price + p.trailing_distance.getD 0 < p.current_stop then
          { p with
            lowest_price := some current_price
            current_stop := current_price + p.trailing_distance.getD 0 }
        else { p with lowest_price := some current_price }
      | some l =>
        if current_price < l then
          if current_price + p.trailing_distance.getD 0 < p.current_stop then
            { p with
              lowest_price := some current_price
              current_stop := current_price + p.trailing_distance.getD 0 }
          else { p with lowest_price := some current_price }
        else p
  else p

/-- Position.update_trailing_stop (trading/models.py lines 155-181): the
activation block followed by the trailing-update block. -/
def Position.update_trailing_stop
    (p : Position) (current_price trailing_trigger_pct : ℚ) : Position :=
  (p.activate_step current_price trailing_trigger_pct).trail_step current_price

/-- The RiskState model (trading/models.py lines 184-276): daily balance and
drawdown tracking for the circuit breaker. -/
structure RiskState where
  starting_balance : ℚ
  current_balance : ℚ
  highest_balance : ℚ
  daily_pnl : ℚ
  daily_pnl_pct : ℚ
  drawdown : ℚ
  drawdown_pct : ℚ
  max_drawdown_pct : ℚ
  system_status : SystemStatus
  pause_reason : String
  deriving DecidableEq, Repr

/-- RiskState.update_balance (models.py lines 233-255).  Each `let` captures
one sequential field assignment of the Python method; later assignments read
the fields already updated (`self.highest_balance` after the max step,
`self.drawdown_pct` after its recomputation). -/
def RiskState.update_balance (rs : RiskState) (new_balance : ℚ) : RiskState :=
  let highest := if new_balance > rs.highest_balance then new_balance else rs.highest_balance
  let daily_pnl := new_balance - rs.starting_balance
  let daily_pnl_pct :=
    if rs.starting_balance > 0 then daily_pnl / rs.starting_balance * 100 else rs.daily_pnl_pct
  let drawdown := highest - new_balance
  let drawdown_pct := if highest > 0 then drawdown / highest * 100 else rs.drawdown_pct
  let max_dd := if drawdown_pct > rs.max_drawdown_pct then drawdown_pct else rs.max_drawdown_pct
  { rs with
    current_balance := new_balance
    highest_balance := highest
    daily_pnl := daily_pnl
    daily_pnl_pct := daily_pnl_pct
    drawdown := drawdown
    drawdown_pct := drawdown_pct
    max_drawdown_pct := max_dd }

/-- The freshly created row of RiskState.get_or_create_today (models.py lines
264-276): starting, current and highest balance all equal
`starting_balance or Decimal('0')`; every other numeric column takes its model
default `Decimal('0')` and the status its default ACTIVE. -/
def RiskState.create_today (starting_balance : Option ℚ) : RiskState :=
  { starting_balance := starting_balance.getD 0
    current_balance := starting_balance.getD 0
    highest_balance := starting_balance.getD 0
    daily_pnl := 0
    daily_pnl_pct := 0
    drawdown := 0
    drawdown_pct := 0
    max_drawdown_pct := 0
    system_status := SystemStatus.ACTIVE
    pause_reason := "" }

/-- A sequence of `update_balance` calls applied in order. -/
def RiskState.apply_updates (rs : RiskState) : List ℚ → RiskState
  | [] => rs
  | b :: bs => (rs.update_balance b).apply_updates bs

/-- RiskManager.check_circuit_breaker (services/risk_manager.py lines
413-457), with today's risk state and the already-fetched balance passed
explicitly (the method reads them from the database and the exchange).
Returns the `should_trigger` flag together with the possibly-updated risk
state; the interpolated reason string is not modelled. -/
def RiskManager.check_circuit_breaker (daily_drawdown_limit : ℚ)
    (risk_state : RiskState) (current_balance : Option ℚ) : Bool × RiskState :=
  if risk_state.system_status = SystemStatus.PAUSED then
    (true, risk_state)
  else
    match current_balance with
    | none => (false, risk_state)
    | some bal =>
      let rs := risk_state.update_balance bal
      if rs.drawdown_pct ≥ daily_drawdown_limit * 100 then (true, rs) else (false, rs)

/-- Environment of RiskManager.is_trading_allowed: the outcome of each
fallible collaborator call.  `Except.error` means the call raised. -/
structure TradingEnv where
  redis_present : Bool
  redis_is_trading_active : Except String Bool
  redis_status_reason : Except String String
  risk_state : Except String RiskState
  deriving Repr

/-- The try-block of RiskManager.is_trading_allowed (services/risk_manager.py
lines 497-521), propagating exceptions from the collaborator calls. -/
def RiskManager.trading_allowed_body (env : TradingEnv) : Except String (Bool × String) := do
  if env.redis_present then
    let active ← env.redis_is_trading_active
    if active = false then
      let reason ← env.redis_status_reason
      return (false, reason)
  let rs ← env.risk_state
  if rs.system_status = SystemStatus.PAUSED then
    return (false, rs.pause_reason)
  if rs.system_status = SystemStatus.EMERGENCY_STOP then
    return (false, "Emergency stop active")
  return (true, "")

/-- RiskManager.is_trading_allowed (lines 497-524): the try-block above with
the except-handler returning `(True, "")`. -/
def RiskManager.is_trading_allowed (env : TradingEnv) : Bool × String :=
  match RiskManager.trading_allowed_body env with
  | Except.ok r => r
  | Except.error _ => (true, "")

/-- Order book snapshot: price/quantity ladders, best level first, as consumed
by RiskManager.check_slippage. -/
structure OrderBook where
  asks : List (ℚ × ℚ)
  bids : List (ℚ × ℚ)
  deriving DecidableEq, Repr

/-- Result of RiskManager.check_slippage (services/risk_manager.py lines
29-37), without the reason string. -/
structure SlippageCheck where
  estimated_slippage_pct : ℚ
  is_acceptable : Bool
  sufficient_liquidity : Bool
  estimated_avg_price : ℚ
  deriving DecidableEq, Repr

/-- The for-loop of check_slippage (lines 261-271): walk the ladder filling
`remaining`, accumulating `total_cost`, breaking once `remaining ≤ 0`.
Returns (remaining, total_cost). -/
def fillLadder : ℚ → ℚ → List (ℚ × ℚ) → ℚ × ℚ
  | remaining, total_cost, [] => (remaining, total_cost)
  | remaining, total_cost, (price, qty) :: rest =>
    if remaining ≤ 0 then (remaining, total_cost)
    else fillLadder (remaining - min remaining qty) (total_cost + min remaining qty * price) rest

/-- Total quantity available on a ladder. -/
def ladderQty (levels : List (ℚ × ℚ)) : ℚ :=
  (levels.map Prod.snd).sum

/-- RiskManager.check_slippage (services/risk_manager.py lines 207-315) with
the order book passed in (`none` models the no-data branch). -/
def RiskManager.check_slippage (max_slippage_pct : ℚ) (side : Side) (quantity : ℚ)
    (order_book : Option OrderBook) : SlippageCheck :=
  match order_book with
  | none =>
    { estimated_slippage_pct := 999, is_acceptable := false
      sufficient_liquidity := false, estimated_avg_price := 0 }
  | some ob =>
    let levels := if side = Side.BUY then ob.asks else ob.bids
    match levels with
    | [] =>
      { estimated_slippage_pct := 999, is_acceptable := false
        sufficient_liquidity := false, estimated_avg_price := 0 }
    | (best_price, _) :: _ =>
      let filled := fillLadder quantity 0 levels
      if filled.1 > 0 then
        { estimated_slippage_pct := 100, is_acceptable := false
          sufficient_liquidity := false, estimated_avg_price := 0 }
      else
        let avg_price := filled.2 / quantity
        let slippage_pct := |avg_price - best_price| / best_price * 100
        { estimated_slippage_pct := slippage_pct
          is_acceptable := decide (slippage_pct ≤ max_slippage_pct * 100)
          sufficient_liquidity := true
          estimated_avg_price := avg_price }

/-- Decimal.quantize to `n` decimal places under the default context rounding
ROUND_HALF_EVEN, on exact rationals: scale by 10^n, round half to even, scale
back. -/
def quantizeHalfEven (q : ℚ) (n : ℕ) : ℚ :=
  let s := q * 10 ^ n
  let f : ℤ := ⌊s⌋
  let frac := s - f
  let r : ℤ :=
    if frac < 1 / 2 then f
    else if frac > 1 / 2 then f + 1
    else if f % 2 = 0 then f else f + 1
  (r : ℚ) / 10 ^ n

/-- BinanceClient.format_quantity (services/binance_client.py lines 324-334)
for a symbol whose `step_size` has decimal exponent `-n` (`none` models a
symbol without a LOT_SIZE filter).  The Python code calls
`quantity.quantize(Decimal(10) ** -precision)` with no rounding argument, so
the context default ROUND_HALF_EVEN applies. -/
def BinanceClient.format_quantity (step_precision : Option ℕ) (quantity : ℚ) : ℚ :=
  match step_precision with
  | some n => quantizeHalfEven quantity n
  | none => quantity

/-- VPAPattern from services/vpa_analyzer.py. -/
inductive VPAPattern
  | CLIMAX_HIGH
  | CLIMAX_LOW
  | NO_DEMAND
  | NO_SUPPLY
  | STOPPING_VOLUME
  | TEST
  | UPTHRUST
  | SPRING
  | EFFORT_VS_RESULT
  | NEUTRAL
  deriving DecidableEq, Repr

/-- TrendDirection from services/vpa_analyzer.py. -/
inductive TrendDirection
  | BULLISH
  | BEARISH
  | NEUTRAL
  deriving DecidableEq, Repr

/-- The reversal-pattern list of VPAAnalyzer._is_valid_signal (lines 433-438). -/
def VPAAnalyzer.reversal_patterns : List VPAPattern :=
  [VPAPattern.CLIMAX_HIGH, VPAPattern.CLIMAX_LOW,
   VPAPattern.UPTHRUST, VPAPattern.SPRING,
   VPAPattern.STOPPING_VOLUME]

/-- VPAAnalyzer._is_valid_signal (services/vpa_analyzer.py lines 413-450),
translated branch for branch, including the final unconditional
`return True`. -/
def VPAAnalyzer.is_valid_signal
    (pattern : VPAPattern) (strength : ℚ) (trend : TrendDirection) : Bool :=
  if pattern = VPAPattern.NEUTRAL then false
  else if strength < 1 / 2 then false
  else if pattern ∈ VPAAnalyzer.reversal_patterns then true
  else if pattern = VPAPattern.NO_DEMAND ∧ trend ≠ TrendDirection.BULLISH then true
  else if pattern = VPAPattern.NO_SUPPLY ∧ trend ≠ TrendDirection.BEARISH then true
  else true

/-- DimensionAlignment from services/three_d_analyzer.py. -/
inductive DimensionAlignment
  | BULLISH
  | BEARISH
  | NEUTRAL
  | CONFLICTING
  deriving DecidableEq, Repr

/-- ThreeDAnalyzer._calculate_trend_alignment (services/three_d_analyzer.py
lines 371-398); the timeframe dictionary becomes an association list. -/
def ThreeDAnalyzer.calculate_trend_alignment
    (timeframe_trends : List (String × DimensionAlignment)) : ℚ × DimensionAlignment :=
  match timeframe_trends with
  | [] => (0, DimensionAlignment.NEUTRAL)
  | _ =>
    let bullish_count :=
      (timeframe_trends.filter fun t => t.2 = DimensionAlignment.BULLISH).length
    let bearish_count :=
      (timeframe_trends.filter fun t => t.2 = DimensionAlignment.BEARISH).length
    let total := timeframe_trends.length
    if bullish_count > bearish_count then
      ((bullish_count : ℚ) / (total : ℚ), DimensionAlignment.BULLISH)
    else if bearish_count > bullish_count then
      ((bearish_count : ℚ) / (total : ℚ), DimensionAlignment.BEARISH)
    else
      (0, DimensionAlignment.NEUTRAL)

/-- ThreeDAnalyzer.PRE_EVENT_AVOID_MINUTES. -/
def ThreeDAnalyzer.PRE_EVENT_AVOID_MINUTES : ℚ := 30

/-- ThreeDAnalyzer._is_valid_signal (services/three_d_analyzer.py lines
465-501).  `time_to_next_event` is the optional timedelta in seconds; Python
tests its truthiness (`if fundamental.time_to_next_event:`), which is false
for `None` and for a zero timedelta, then compares
`total_seconds()/60 < PRE_EVENT_AVOID_MINUTES`. -/
def ThreeDAnalyzer.is_valid_signal (confluence : DimensionAlignment)
    (confluence_score : ℚ) (dimensions_aligned : ℕ)
    (time_to_next_event : Option ℚ) : Bool :=
  if confluence = DimensionAlignment.CONFLICTING then false
  else if confluence = DimensionAlignment.NEUTRAL then false
  else if dimensions_aligned < 2 then false
  else if (match time_to_next_event with
           | some t => decide (t ≠ 0) && decide (t / 60 < ThreeDAnalyzer.PRE_EVENT_AVOID_MINUTES)
           | none => false) = true then false
  else if confluence_score < 6 / 10 then false
  else true

/-- The Trade row created by tasks.close_position: side, type, quantity,
status (PENDING at creation, before the fill) and the close context. -/
structure ExitTrade where
  side : Side
  order_type : String
  requested_quantity : ℚ
  status : TradeStatus
  macro_context : String
  deriving DecidableEq, Repr

/-- The Position row as touched by tasks.close_position.  `closed_at_set`
models whether the nullable `closed_at` timestamp has been written;
`exit_trade` holds the index of the exit Trade row in `DB.trades`. -/
structure DBPosition where
  symbol : String
  side : Side
  quantity : ℚ
  status : PosStatus
  close_reason : String
  closed_at_set : Bool
  exit_trade : Option ℕ
  deriving DecidableEq, Repr

/-- Observable state the close_position task touches: the position row, the
Trade rows created so far, and the count of market orders sent to the
exchange. -/
structure DB where
  position : DBPosition
  trades : List ExitTrade
  market_orders_placed : ℕ
  deriving DecidableEq, Repr

/-- Return value of the close_position task (the status key of its result
dict). -/
inductive CloseResult
  | success
  | already_closed
  deriving DecidableEq, Repr

/-- tasks.close_position (trading/tasks.py lines 399-470): if the position is
not OPEN, return `already_closed` untouched; otherwise place one exit market
order on the opposite side, create one PENDING exit Trade row, and mark the
position CLOSED with `close_reason` and `closed_at` set — all before the exit
order fills (filling is done later by monitor_order). -/
def close_position (db : DB) (reason : String) : DB × CloseResult :=
  if db.position.status ≠ PosStatus.OPEN then
    (db, CloseResult.already_closed)
  else
    let exit_side := if db.position.side = Side.BUY then Side.SELL else Side.BUY
    let exit_trade : ExitTrade :=
      { side := exit_side
        order_type := "MARKET"
        requested_quantity := db.position.quantity
        status := TradeStatus.PENDING
        macro_context := "Position close: " ++ reason }
    ({ position :=
        { db.position with
          status := PosStatus.CLOSED
          close_reason := reason
          closed_at_set := true
          exit_trade := some db.trades.length }
       trades := db.trades ++ [exit_trade]
       market_orders_placed := db.market_orders_placed + 1 },
     CloseResult.success)

/-- C2: check_circuit_breaker returns should_trigger = true iff today's risk
state is already PAUSED or, after updating it with the current balance, the
drawdown percentage reaches daily_drawdown_limit × 100; and in the concrete
scenario highest_balance = 10500 (from starting balance 10000 updated to
10500) with current balance 9960 under the default 5% limit, the computed
drawdown percentage is 36/7 ≈ 5.14% and the breaker triggers. -/
theorem c2_circuit_breaker_trigger_iff :
    (∀ (rs : RiskState) (bal limit : ℚ),
      (RiskManager.check_circuit_breaker limit rs (some bal)).1 = true ↔
        (rs.system_status = SystemStatus.PAUSED ∨
          (rs.update_balance bal).drawdown_pct ≥ limit * 100)) ∧
    ((RiskManager.check_circuit_breaker (5 / 100)
        ((RiskState.create_today (some 10000)).update_balance 10500) (some 9960)).1 = true ∧
      (((RiskState.create_today (some 10000)).update_balance 10500).update_balance 9960).drawdown_pct
        = 36 / 7) := by
  constructor
  · intro rs bal limit
    unfold RiskManager.check_circuit_breaker
    by_cases hp : rs.system_status = SystemStatus.PAUSED
    · simp [hp]
    · by_cases hd : (rs.update_balance bal).drawdown_pct ≥ limit * 100
      · simp [hp, hd]
      · simp [hp, hd]
  · constructor
    · norm_num [RiskManager.check_circuit_breaker, RiskState.update_balance,
        RiskState.create_today]
      decide
    · norm_num [RiskState.update_balance, RiskState.create_today]

/-- C3: the VPA signal-validity check is claimed to reject NO_DEMAND when the
trend is bullish (and NO_SUPPLY when bearish); the code's trend checks are
dead because the function ends in an unconditional `return True`, so
NO_DEMAND with strength 0.6 in a BULLISH trend is reported valid. -/
theorem c3_no_demand_bullish_accepted :
    VPAAnalyzer.is_valid_signal VPAPattern.NO_DEMAND (6 / 10) TrendDirection.BULLISH = true ∧
    VPAAnalyzer.is_valid_signal VPAPattern.NO_SUPPLY (6 / 10) TrendDirection.BEARISH = true := by
  constructor
  · norm_num [VPAAnalyzer.is_valid_signal, VPAAnalyzer.reversal_patterns]
    decide
  · norm_num [VPAAnalyzer.is_valid_signal, VPAAnalyzer.reversal_patterns]
    decide

/-- C4: format_quantity is claimed to round down to step-size precision, but
`quantize` without an explicit rounding mode uses ROUND_HALF_EVEN: for a
step size of 0.01 (precision 2) and quantity 0.159 it returns 0.16, which is
strictly greater than the input, while rounding down gives 0.15. -/
theorem c4_format_quantity_rounds_up :
    BinanceClient.format_quantity (some 2) (159 / 1000) = 16 / 100 ∧
    (159 / 1000 : ℚ) < 16 / 100 ∧
    ¬ BinanceClient.format_quantity (some 2) (159 / 1000) ≤ 159 / 1000 := by
  refine ⟨by norm_num [BinanceClient.format_quantity, quantizeHalfEven], by norm_num,
    by norm_num [BinanceClient.format_quantity, quantizeHalfEven]⟩

/-- C7 counterexample: with two bullish and two bearish timeframes the code
returns trend_alignment 0.0 (with primary trend NEUTRAL), not
max(bullish, bearish)/total = 2/4 = 0.5 as the claim states. -/
theorem c7_tie_alignment_counterexample :
    (ThreeDAnalyzer.calculate_trend_alignment
      [("1m", DimensionAlignment.BULLISH), ("5m", DimensionAlignment.BULLISH),
       ("15m", DimensionAlignment.BEARISH), ("1h", DimensionAlignment.BEARISH)]).1 = 0 ∧
    (ThreeDAnalyzer.calculate_trend_alignment
      [("1m", DimensionAlignment.BULLISH), ("5m", DimensionAlignment.BULLISH),
       ("15m", DimensionAlignment.BEARISH), ("1h", DimensionAlignment.BEARISH)]).2
      = DimensionAlignment.NEUTRAL ∧
    (ThreeDAnalyzer.calculate_trend_alignment
      [("1m", DimensionAlignment.BULLISH), ("5m", DimensionAlignment.BULLISH),
       ("15m", DimensionAlignment.BEARISH), ("1h", DimensionAlignment.BEARISH)]).1
      ≠ (2 : ℚ) / 4 := by
  refine ⟨?_, ?_, ?_⟩
  · simp +decide [ThreeDAnalyzer.calculate_trend_alignment, List.filter]
  · simp +decide [ThreeDAnalyzer.calculate_trend_alignment, List.filter]
  · simp +decide [ThreeDAnalyzer.calculate_trend_alignment, List.filter]
    norm_num

/-- C10: if any step inside is_trading_allowed raises (its body returns an
exception), the except-handler makes the method return `(True, "")`: the
system fails open. -/
theorem c10_fails_open (env : TradingEnv) (e : String)
    (h : RiskManager.trading_allowed_body env = Except.error e) :
    RiskManager.is_trading_allowed env = (true, "") := by
  unfold RiskManager.is_trading_allowed
  rw [h]

/-- Witness for C10: a concrete environment where the risk-state lookup
raises; the body errors and is_trading_allowed returns (true, ""). -/
theorem c10_fails_open_witness :
    RiskManager.is_trading_allowed
      { redis_present := false
        redis_is_trading_active := Except.ok true
        redis_status_reason := Except.ok ""
        risk_state := Except.error "database unavailable" } = (true, "") :=
  c10_fails_open _ "database unavailable" rfl

/-- C6: for every 3-D analysis result (whose time-to-next-event, when
present, is a positive timedelta — _analyze_fundamental only records events
with release_time strictly in the future), the signal is valid iff the
confluence is BULLISH or BEARISH, at least two dimensions align, no upcoming
event is closer than 30 minutes, and the confluence score is at least 0.6. -/
theorem c6_three_d_valid_iff (conf : DimensionAlignment) (score : ℚ) (dims : ℕ)
    (tte : Option ℚ) (hpos : ∀ t, tte = some t → 0 < t) :
    ThreeDAnalyzer.is_valid_signal conf score dims tte = true ↔
      ((conf = DimensionAlignment.BULLISH ∨ conf = DimensionAlignment.BEARISH) ∧
        2 ≤ dims ∧
        (tte = none ∨ ∃ t, tte = some t ∧ 30 ≤ t / 60) ∧
        6 / 10 ≤ score) := by
  cases tte with
  | none =>
    cases conf <;>
      simp only [ThreeDAnalyzer.is_valid_signal, ThreeDAnalyzer.PRE_EVENT_AVOID_MINUTES] <;>
      split_ifs <;> simp_all
  | some t =>
    have ht : 0 < t := hpos t rfl
    have ht0 : t ≠ 0 := ne_of_gt ht
    cases conf <;>
      simp only [ThreeDAnalyzer.is_valid_signal, ThreeDAnalyzer.PRE_EVENT_AVOID_MINUTES] <;>
      split_ifs <;> simp_all

/-- Witness for C6 (the pre-event guard): an otherwise-valid bullish signal
with a HIGH-impact event 20 minutes (1200 seconds) away is invalid. -/
theorem c6_three_d_valid_iff_witness :
    (∀ t : ℚ, (some (1200 : ℚ) = some t) → 0 < t) ∧
    ThreeDAnalyzer.is_valid_signal DimensionAlignment.BULLISH (8 / 10) 2 (some 1200) = false := by
  refine ⟨fun t h => by injection h with h; rw [h.symm]; norm_num, ?_⟩
  have h := c6_three_d_valid_iff DimensionAlignment.BULLISH (8 / 10) 2 (some 1200)
    (fun t h => by injection h with h; rw [h.symm]; norm_num)
  rcases hb : ThreeDAnalyzer.is_valid_signal DimensionAlignment.BULLISH (8 / 10) 2 (some 1200) with _ | _
  · rfl
  · exfalso
    rcases (h.mp hb).2.2.1 with hnone | ⟨t, hsome, h30⟩
    · exact Option.noConfusion hnone
    · injection hsome with h1200
      rw [h1200.symm] at h30
      norm_num at h30

/-- C9: calling close_position twice in sequence on a position that is OPEN
at the first call places exactly one exit market order and creates exactly
one exit Trade (created PENDING, i.e. before it fills); the first call marks
the position CLOSED with close_reason and closed_at set, and the second call
returns `already_closed` leaving the state untouched. -/
theorem c9_close_position_idempotent (db : DB) (reason reason2 : String)
    (hopen : db.position.status = PosStatus.OPEN) :
    (close_position db reason).2 = CloseResult.success ∧
    ((close_position db reason).1.position.status = PosStatus.CLOSED ∧
      (close_position db reason).1.position.close_reason = reason ∧
      (close_position db reason).1.position.closed_at_set = true) ∧
    (close_position db reason).1.market_orders_placed = db.market_orders_placed + 1 ∧
    (close_position db reason).1.trades =
      db.trades ++
        [{ side := if db.position.side = Side.BUY then Side.SELL else Side.BUY
           order_type := "MARKET"
           requested_quantity := db.position.quantity
           status := TradeStatus.PENDING
           macro_context := "Position close: " ++ reason }] ∧
    (close_position (close_position db reason).1 reason2).1 = (close_position db reason).1 ∧
    (close_position (close_position db reason).1 reason2).2 = CloseResult.already_closed := by
  have h1 : close_position db reason =
      ({ position :=
          { db.position with
            status := PosStatus.CLOSED
            close_reason := reason
            closed_at_set := true
            exit_trade := some db.trades.length }
         trades := db.trades ++
          [{ side := if db.position.side = Side.BUY then Side.SELL else Side.BUY
             order_type := "MARKET"
             requested_quantity := db.position.quantity
             status := TradeStatus.PENDING
             macro_context := "Position close: " ++ reason }]
         market_orders_placed := db.market_orders_placed + 1 },
        CloseResult.success) := by
    unfold close_position
    rw [if_neg]
    simp [hopen]
  have h2 : (close_position db reason).1.position.status = PosStatus.CLOSED := by
    rw [h1]
  have hclosed : ∀ s : DB, s.position.status = PosStatus.CLOSED →
      close_position s reason2 = (s, CloseResult.already_closed) := by
    intro s hs
    unfold close_position
    rw [if_pos (by rw [hs]; exact fun hc => PosStatus.noConfusion hc)]
  have h3 : close_position (close_position db reason).1 reason2 =
      ((close_position db reason).1, CloseResult.already_closed) := hclosed _ h2
  refine ⟨by rw [h1], ⟨by rw [h1], by rw [h1], by rw [h1]⟩, by rw [h1], by rw [h1],
    by rw [h3], by rw [h3]⟩

/-- Witness for C9: a concrete open long position; two sequential calls
yield one PENDING exit trade, one market order, and an unchanged state on
the second call. -/
theorem c9_close_position_idempotent_witness :
    ({ position :=
        { symbol := "BTCUSDT", side := Side.BUY, quantity := 2, status := PosStatus.OPEN,
          close_reason := "", closed_at_set := false, exit_trade := none }
       trades := []
       market_orders_placed := 0 } : DB).position.status = PosStatus.OPEN ∧
    (close_position
      { position :=
          { symbol := "BTCUSDT", side := Side.BUY, quantity := 2, status := PosStatus.OPEN,
            close_reason := "", closed_at_set := false, exit_trade := none }
        trades := []
        market_orders_placed := 0 } "STOP_LOSS").2 = CloseResult.success ∧
    (close_position (close_position
      { position :=
          { symbol := "BTCUSDT", side := Side.BUY, quantity := 2, status := PosStatus.OPEN,
            close_reason := "", closed_at_set := false, exit_trade := none }
        trades := []
        market_orders_placed := 0 } "STOP_LOSS").1 "STOP_LOSS").2 = CloseResult.already_closed := by
  refine ⟨rfl, ?_, ?_⟩
  · exact (c9_close_position_idempotent _ "STOP_LOSS" "STOP_LOSS" rfl).1
  · exact (c9_close_position_idempotent _ "STOP_LOSS" "STOP_LOSS" rfl).2.2.2.2.2

/-- On an already-activated long, activate_step is the identity. -/
lemma activate_step_of_activated (p : Position) (price trigger : ℚ)
    (hact : p.trailing_activated = true) :
    p.activate_step price trigger = p := by
  unfold Position.activate_step
  rw [if_neg]
  intro h
  rw [hact] at h
  exact Bool.noConfusion h.1

/-- The trailing-update block for an activated long preserves the stop
invariant and never lowers the stop. -/
lemma trail_step_buy_invariant (p : Position) (price h d : ℚ)
    (hact : p.trailing_activated = true) (hside : p.side = Side.BUY)
    (hh : p.highest_price = some h) (hd : p.trailing_distance = some d)
    (hinv : p.current_stop ≤ h - d) :
    p.current_stop ≤ (p.trail_step price).current_stop ∧
    ∃ h', (p.trail_step price).highest_price = some h' ∧
      (p.trail_step price).trailing_distance = some d ∧
      (p.trail_step price).current_stop ≤ h' - d := by
  unfold Position.trail_step
  rw [if_pos hact, if_pos hside, hh, hd]
  simp only [Option.getD_some]
  by_cases h1 : price > h
  · rw [if_pos h1]
    by_cases h2 : price - d > p.current_stop
    · rw [if_pos h2]
      exact ⟨le_of_lt h2, price, rfl, rfl, le_refl _⟩
    · rw [if_neg h2]
      exact ⟨le_refl _, price, rfl, rfl, by linarith⟩
  · rw [if_neg h1]
    exact ⟨le_refl _, h, hh, hd, hinv⟩

/-- C1: for a long position with the trailing stop active and the invariant
current_stop ≤ highest_price − trailing_distance, any call to
update_trailing_stop never lowers current_stop and re-establishes the
invariant; and for an inactive long whose profit reaches the trigger (with
the stop below the current price, as for any long in profit), the activation
step sets trailing_distance = |price − current_stop| and
highest_price = price and establishes the invariant. -/
theorem c1_trailing_stop_invariant (p : Position) (price trigger : ℚ) :
    (∀ h d : ℚ, p.side = Side.BUY → p.trailing_activated = true →
      p.highest_price = some h → p.trailing_distance = some d →
      p.current_stop ≤ h - d →
      p.current_stop ≤ (p.update_trailing_stop price trigger).current_stop ∧
      ∃ h', (p.update_trailing_stop price trigger).highest_price = some h' ∧
        (p.update_trailing_stop price trigger).trailing_distance = some d ∧
        (p.update_trailing_stop price trigger).current_stop ≤ h' - d) ∧
    (p.side = Side.BUY → p.trailing_activated = false →
      p.unrealized_pnl_pct ≥ trigger * 100 → p.current_stop ≤ price →
      (p.update_trailing_stop price trigger).trailing_activated = true ∧
      (p.update_trailing_stop price trigger).trailing_distance = some |price - p.current_stop| ∧
      (p.update_trailing_stop price trigger).highest_price = some price ∧
      (p.update_trailing_stop price trigger).current_stop ≤
        price - |price - p.current_stop|) := by
  constructor
  · intro h d hside hact hh hd hinv
    unfold Position.update_trailing_stop
    rw [activate_step_of_activated p price trigger hact]
    exact trail_step_buy_invariant p price h d hact hside hh hd hinv
  · intro hside hact hprofit hstop
    unfold Position.update_trailing_stop
    have habs : |price - p.current_stop| = price - p.current_stop :=
      abs_of_nonneg (by linarith)
    have hps : p.activate_step price trigger =
        { p with
          trailing_activated := true
          trailing_distance := some |price - p.current_stop|
          highest_price := some price
          lowest_price := none } := by
      unfold Position.activate_step
      rw [if_pos ⟨hact, hprofit⟩]
      rw [if_pos hside, if_neg (by rw [hside]; exact fun hc => Side.noConfusion hc)]
    rw [hps]
    unfold Position.trail_step
    rw [if_pos rfl, if_pos hside]
    simp only [Option.getD_some]
    rw [if_neg (lt_irrefl price)]
    refine ⟨rfl, rfl, rfl, ?_⟩
    rw [habs]
    linarith

/-- Concrete activated long used by the C1 witness: stop 95, highest 100,
trailing distance 5 (invariant holds with equality). -/
def examplePosition : Position :=
  { side := Side.BUY, unrealized_pnl_pct := 2, current_stop := 95,
    trailing_activated := true, trailing_distance := some 5,
    highest_price := some 100, lowest_price := none }

/-- Witness for C1: on the concrete activated long, a tick to 102 never
lowers the stop (it moves it to 97 = 102 − 5) and the invariant is
re-established. -/
theorem c1_trailing_stop_invariant_witness :
    examplePosition.current_stop ≤ (95 : ℚ) ∧
    (examplePosition.update_trailing_stop 102 (2 / 100)).current_stop = 97 ∧
    examplePosition.current_stop ≤
      (examplePosition.update_trailing_stop 102 (2 / 100)).current_stop := by
  have h := (c1_trailing_stop_invariant examplePosition 102 (2 / 100)).1
    100 5 rfl rfl rfl rfl (by norm_num [examplePosition])
  refine ⟨by norm_num [examplePosition], ?_, h.1⟩
  norm_num [examplePosition, Position.update_trailing_stop, Position.activate_step,
    Position.trail_step]

/-- The balance/drawdown invariant of a RiskState row. -/
def RiskState.Inv (rs : RiskState) : Prop :=
  rs.current_balance ≤ rs.highest_balance ∧ 0 ≤ rs.highest_balance ∧
    0 ≤ rs.drawdown_pct ∧ rs.drawdown_pct ≤ 100

/-- update_balance with a nonnegative balance preserves the invariant. -/
lemma update_balance_preserves_inv (rs : RiskState) (b : ℚ) (hb : 0 ≤ b)
    (hinv : rs.Inv) : (rs.update_balance b).Inv := by
  obtain ⟨h1, h2, h3, h4⟩ := hinv
  unfold RiskState.update_balance RiskState.Inv
  by_cases hgt : b > rs.highest_balance
  · rw [if_pos hgt]
    simp only
    have hbpos : (0 : ℚ) < b := lt_of_le_of_lt h2 hgt
    rw [if_pos hbpos]
    have heq : (b - b) / b * 100 = 0 := by field_simp
    rw [heq]
    exact ⟨le_refl _, le_of_lt hbpos, le_refl _, by norm_num⟩
  · rw [if_neg hgt]
    push_neg at hgt
    simp only
    by_cases hpos : rs.highest_balance > 0
    · rw [if_pos hpos]
      refine ⟨hgt, h2, ?_, ?_⟩
      · have : 0 ≤ (rs.highest_balance - b) / rs.highest_balance := by
          apply div_nonneg (by linarith) (le_of_lt hpos)
        linarith
      · have hle : (rs.highest_balance - b) / rs.highest_balance ≤ 1 := by
          rw [div_le_one hpos]
          linarith
        linarith
    · rw [if_neg hpos]
      exact ⟨hgt, h2, h3, h4⟩

/-- Any sequence of nonnegative balance updates preserves the invariant. -/
lemma apply_updates_preserves_inv (bs : List ℚ) (rs : RiskState)
    (hbs : ∀ b ∈ bs, 0 ≤ b) (hinv : rs.Inv) : (rs.apply_updates bs).Inv := by
  induction bs generalizing rs with
  | nil => exact hinv
  | cons b bs ih =>
    exact ih _ (fun x hx => hbs x (List.mem_cons_of_mem b hx))
      (update_balance_preserves_inv rs b (hbs b (List.mem_cons_self b bs)) hinv)

/-- C8: for every RiskState reachable from its lazy creation by any sequence
of update_balance calls with exchange balances (which are nonnegative),
highest_balance ≥ current_balance after every call, and drawdown_pct stays in
[0, 100].  The `List.take n` prefix quantifies over every intermediate state
of the sequence. -/
theorem c8_risk_state_invariant (b0 : Option ℚ) (bs : List ℚ) (n : ℕ)
    (hb0 : 0 ≤ b0.getD 0) (hbs : ∀ b ∈ bs, 0 ≤ b) :
    ((RiskState.create_today b0).apply_updates (bs.take n)).current_balance ≤
      ((RiskState.create_today b0).apply_updates (bs.take n)).highest_balance ∧
    0 ≤ ((RiskState.create_today b0).apply_updates (bs.take n)).drawdown_pct ∧
    ((RiskState.create_today b0).apply_updates (bs.take n)).drawdown_pct ≤ 100 := by
  have hcreate : (RiskState.create_today b0).Inv := by
    unfold RiskState.create_today RiskState.Inv
    exact ⟨le_refl _, hb0, le_refl _, by norm_num⟩
  have h := apply_updates_preserves_inv (bs.take n) (RiskState.create_today b0)
    (fun b hb => hbs b (List.mem_of_mem_take hb)) hcreate
  exact ⟨h.1, h.2.2.1, h.2.2.2⟩

/-- Witness for C8: starting balance 10000 with updates 10500 then 9960,
taking the full sequence: the invariant holds (drawdown_pct = 36/7). -/
theorem c8_risk_state_invariant_witness :
    (0 : ℚ) ≤ (some (10000 : ℚ)).getD 0 ∧
    (∀ b ∈ [(10500 : ℚ), 9960], 0 ≤ b) ∧
    (((RiskState.create_today (some 10000)).apply_updates
        ([(10500 : ℚ), 9960].take 2)).current_balance ≤
      ((RiskState.create_today (some 10000)).apply_updates
        ([(10500 : ℚ), 9960].take 2)).highest_balance ∧
      0 ≤ ((RiskState.create_today (some 10000)).apply_updates
        ([(10500 : ℚ), 9960].take 2)).drawdown_pct ∧
      ((RiskState.create_today (some 10000)).apply_updates
        ([(10500 : ℚ), 9960].take 2)).drawdown_pct ≤ 100) := by
  have hlist : ∀ b ∈ [(10500 : ℚ), 9960], 0 ≤ b := by
    intro b hb
    simp only [List.mem_cons, List.not_mem_nil, or_false] at hb
    rcases hb with h | h <;> subst h <;> norm_num
  exact ⟨by norm_num, hlist,
    c8_risk_state_invariant (some 10000) [10500, 9960] 2 (by norm_num) hlist⟩

/-- The remaining quantity after walking the ladder is the requested
quantity minus the available quantity, clamped at zero (for nonnegative
level quantities). -/
lemma fillLadder_remaining (levels : List (ℚ × ℚ)) (r c : ℚ) (hr : 0 ≤ r)
    (hlv : ∀ lv ∈ levels, 0 ≤ lv.2) :
    (fillLadder r c levels).1 = max (r - ladderQty levels) 0 := by
  induction levels generalizing r c with
  | nil =>
    simp only [fillLadder, ladderQty, List.map_nil, List.sum_nil, sub_zero]
    exact (max_eq_left hr).symm
  | cons lv rest ih =>
    obtain ⟨price, qty⟩ := lv
    have hq : 0 ≤ qty := hlv (price, qty) (List.mem_cons_self _ _)
    have hrest : ∀ lv ∈ rest, 0 ≤ lv.2 := fun lv h => hlv lv (List.mem_cons_of_mem _ h)
    have hQ : 0 ≤ ladderQty rest := by
      unfold ladderQty
      apply List.sum_nonneg
      intro x hx
      obtain ⟨lv, hlv2, hsnd⟩ := List.mem_map.mp hx
      exact hsnd ▸ hrest lv hlv2
    have hQcons : ladderQty ((price, qty) :: rest) = qty + ladderQty rest := by
      unfold ladderQty
      simp [List.map_cons, List.sum_cons]
    rw [hQcons]
    unfold fillLadder
    by_cases h0 : r ≤ 0
    · rw [if_pos h0]
      have hr0 : r = 0 := le_antisymm h0 hr
      subst hr0
      simp only
      rw [max_eq_right (by linarith)]
    · rw [if_neg h0]
      push_neg at h0
      rw [ih (r - min r qty) (c + min r qty * price)
        (by have := min_le_left r qty; linarith) hrest]
      by_cases hmin : qty ≤ r
      · rw [min_eq_right hmin]
        congr 1
        ring
      · push_neg at hmin
        rw [min_eq_left (le_of_lt hmin)]
        rw [max_eq_right (by linarith), max_eq_right (by linarith)]

/-- C5: for every order book with nonnegative level quantities, positive
best price and positive requested quantity, check_slippage walks the
opposite-side ladder: if the ladder holds less than the requested quantity
it reports insufficient liquidity; otherwise it reports
estimated_avg_price = total_cost/quantity, slippage_pct =
|avg − best|/best × 100 with best the first level's price, and accepts the
order iff slippage_pct ≤ max_slippage_pct × 100. -/
theorem c5_check_slippage (ob : OrderBook) (side : Side) (q max_slippage_pct bp bq : ℚ)
    (rest : List (ℚ × ℚ)) (hq : 0 < q)
    (hlv : ∀ lv ∈ (if side = Side.BUY then ob.asks else ob.bids), 0 ≤ lv.2)
    (hL : (if side = Side.BUY then ob.asks else ob.bids) = (bp, bq) :: rest)
    (_hbp : 0 < bp) :
    (ladderQty ((bp, bq) :: rest) < q →
      (RiskManager.check_slippage max_slippage_pct side q (some ob)).sufficient_liquidity
        = false) ∧
    (q ≤ ladderQty ((bp, bq) :: rest) →
      (RiskManager.check_slippage max_slippage_pct side q (some ob)).sufficient_liquidity
          = true ∧
        (RiskManager.check_slippage max_slippage_pct side q (some ob)).estimated_avg_price
          = (fillLadder q 0 ((bp, bq) :: rest)).2 / q ∧
        (RiskManager.check_slippage max_slippage_pct side q (some ob)).estimated_slippage_pct
          = |(fillLadder q 0 ((bp, bq) :: rest)).2 / q - bp| / bp * 100 ∧
        ((RiskManager.check_slippage max_slippage_pct side q (some ob)).is_acceptable = true ↔
          (RiskManager.check_slippage max_slippage_pct side q (some ob)).estimated_slippage_pct
            ≤ max_slippage_pct * 100)) := by
  have hrem : (fillLadder q 0 ((bp, bq) :: rest)).1 = max (q - ladderQty ((bp, bq) :: rest)) 0 := by
    rw [← hL]
    exact fillLadder_remaining _ q 0 (le_of_lt hq) hlv
  have hmain : RiskManager.check_slippage max_slippage_pct side q (some ob) =
      (if (fillLadder q 0 ((bp, bq) :: rest)).1 > 0 then
        { estimated_slippage_pct := 100, is_acceptable := false,
          sufficient_liquidity := false, estimated_avg_price := 0 }
      else
        { estimated_slippage_pct := |(fillLadder q 0 ((bp, bq) :: rest)).2 / q - bp| / bp * 100,
          is_acceptable :=
            decide (|(fillLadder q 0 ((bp, bq) :: rest)).2 / q - bp| / bp * 100
              ≤ max_slippage_pct * 100),
          sufficient_liquidity := true,
          estimated_avg_price := (fillLadder q 0 ((bp, bq) :: rest)).2 / q } : SlippageCheck) := by
    simp only [RiskManager.check_slippage]
    rw [hL]
  constructor
  · intro hlt
    rw [hmain]
    rw [if_pos (by rw [hrem]; exact lt_max_iff.mpr (Or.inl (by linarith)))]
  · intro hge
    have hnotpos : ¬ (fillLadder q 0 ((bp, bq) :: rest)).1 > 0 := by
      rw [hrem]
      exact not_lt.mpr (max_le (by linarith) (le_refl 0))
    rw [hmain]
    rw [if_neg hnotpos]
    refine ⟨rfl, rfl, rfl, ?_⟩
    simp only [decide_eq_true_eq]

/-- Witness for C5: book asks [(100, 0.5), (100.5, 0.5), (101, 10)], BUY of
1.5 units: the walk fills, the average price is 100.5, the slippage is 0.5%,
and the order is rejected under the default 0.2% limit. -/
theorem c5_check_slippage_witness :
    (0 : ℚ) < 3 / 2 ∧
    (RiskManager.check_slippage (2 / 1000) Side.BUY (3 / 2)
        (some { asks := [(100, 1 / 2), (201 / 2, 1 / 2), (101, 10)], bids := [] })).sufficient_liquidity
      = true ∧
    (RiskManager.check_slippage (2 / 1000) Side.BUY (3 / 2)
        (some { asks := [(100, 1 / 2), (201 / 2, 1 / 2), (101, 10)], bids := [] })).estimated_avg_price
      = 201 / 2 ∧
    (RiskManager.check_slippage (2 / 1000) Side.BUY (3 / 2)
        (some { asks := [(100, 1 / 2), (201 / 2, 1 / 2), (101, 10)], bids := [] })).estimated_slippage_pct
      = 1 / 2 ∧
    (RiskManager.check_slippage (2 / 1000) Side.BUY (3 / 2)
        (some { asks := [(100, 1 / 2), (201 / 2, 1 / 2), (101, 10)], bids := [] })).is_acceptable
      = false := by
  have h := c5_check_slippage
    { asks := [(100, 1 / 2), (201 / 2, 1 / 2), (101, 10)], bids := [] }
    Side.BUY (3 / 2) (2 / 1000) 100 (1 / 2) [(201 / 2, 1 / 2), (101, 10)]
    (by norm_num)
    (by
      intro lv hlv
      have hlv2 : lv ∈ [((100 : ℚ), (1 : ℚ) / 2), (201 / 2, 1 / 2), (101, 10)] := by
        simpa using hlv
      simp only [List.mem_cons, List.not_mem_nil, or_false] at hlv2
      rcases hlv2 with h | h | h <;> subst h <;> norm_num)
    (by simp)
    (by norm_num)
  have h2 := h.2 (by norm_num [ladderQty])
  have havg : (fillLadder (3 / 2) 0
      [((100 : ℚ), (1 : ℚ) / 2), (201 / 2, 1 / 2), (101, 10)]).2 = 603 / 4 := by
    norm_num [fillLadder]
  refine ⟨by norm_num, h2.1, ?_, ?_, ?_⟩
  · rw [h2.2.1, havg]
    norm_num
  · rw [h2.2.2.1, havg]
    norm_num
  · have hslip : (RiskManager.check_slippage (2 / 1000) Side.BUY (3 / 2)
        (some { asks := [(100, 1 / 2), (201 / 2, 1 / 2), (101, 10)], bids := [] })).estimated_slippage_pct
        = 1 / 2 := by
      rw [h2.2.2.1, havg]
      norm_num
    rcases hb : (RiskManager.check_slippage (2 / 1000) Side.BUY (3 / 2)
        (some { asks := [(100, 1 / 2), (201 / 2, 1 / 2), (101, 10)], bids := [] })).is_acceptable with _ | _
    · rfl
    · exfalso
      have := h2.2.2.2.mp hb
      rw [hslip] at this
      norm_num at this

/-- C7 amended: for a non-empty map of per-timeframe trends, when the
bullish and bearish counts differ the code returns trend_alignment =
max(bullish, bearish)/total with the majority direction as primary trend;
on a tie it returns primary_trend = NEUTRAL with trend_alignment = 0.0 (not
max/total). -/
theorem c7_trend_alignment_amended (trends : List (String × DimensionAlignment))
    (hne : trends ≠ []) :
    ((trends.filter fun t => t.2 = DimensionAlignment.BULLISH).length ≠
        (trends.filter fun t => t.2 = DimensionAlignment.BEARISH).length →
      ThreeDAnalyzer.calculate_trend_alignment trends =
        (((max (trends.filter fun t => t.2 = DimensionAlignment.BULLISH).length
              (trends.filter fun t => t.2 = DimensionAlignment.BEARISH).length : ℕ) : ℚ)
            / (trends.length : ℚ),
          if (trends.filter fun t => t.2 = DimensionAlignment.BEARISH).length <
              (trends.filter fun t => t.2 = DimensionAlignment.BULLISH).length then
            DimensionAlignment.BULLISH
          else DimensionAlignment.BEARISH)) ∧
    ((trends.filter fun t => t.2 = DimensionAlignment.BULLISH).length =
        (trends.filter fun t => t.2 = DimensionAlignment.BEARISH).length →
      ThreeDAnalyzer.calculate_trend_alignment trends = (0, DimensionAlignment.NEUTRAL)) := by
  obtain ⟨hd, tl, rfl⟩ : ∃ hd tl, trends = hd :: tl := by
    cases trends with
    | nil => exact absurd rfl hne
    | cons hd tl => exact ⟨hd, tl, rfl⟩
  simp only [ThreeDAnalyzer.calculate_trend_alignment]
  constructor
  · intro hne2
    by_cases h1 : ((hd :: tl).filter fun t => t.2 = DimensionAlignment.BEARISH).length <
        ((hd :: tl).filter fun t => t.2 = DimensionAlignment.BULLISH).length
    · rw [if_pos h1, if_pos h1]
      rw [Nat.max_eq_left (le_of_lt h1)]
    · rw [if_neg h1, if_neg h1]
      have h2 : ((hd :: tl).filter fun t => t.2 = DimensionAlignment.BULLISH).length <
          ((hd :: tl).filter fun t => t.2 = DimensionAlignment.BEARISH).length := by
        omega
      rw [if_pos h2]
      rw [Nat.max_eq_right (le_of_lt h2)]
  · intro heq
    rw [if_neg (by omega), if_neg (by omega)]

/-- Witness for C7: three timeframes, two bullish and one bearish: the
counts differ, the alignment is 2/3 and the primary trend BULLISH; the tie
branch is vacuous here. -/
theorem c7_trend_alignment_amended_witness :
    ([("1m", DimensionAlignment.BULLISH), ("5m", DimensionAlignment.BULLISH),
        ("15m", DimensionAlignment.BEARISH)] : List (String × DimensionAlignment)) ≠ [] ∧
    ThreeDAnalyzer.calculate_trend_alignment
        [("1m", DimensionAlignment.BULLISH), ("5m", DimensionAlignment.BULLISH),
          ("15m", DimensionAlignment.BEARISH)]
      = (2 / 3, DimensionAlignment.BULLISH) := by
  refine ⟨by simp, ?_⟩
  have h := (c7_trend_alignment_amended
    [("1m", DimensionAlignment.BULLISH), ("5m", DimensionAlignment.BULLISH),
      ("15m", DimensionAlignment.BEARISH)] (by simp)).1 (by simp +decide [List.filter])
  rw [h]
  simp +decide [List.filter]

end Ryki
